import Mathlib

/-!
Shallow embedding of src/bot.py (aitoolsbox): the persistence-store
operations (add_user, is_banned, the ban INSERT), the in-memory rate
limiter (rate_limit over the module-level _last_request dict), and the
dispatcher handlers (tools_handler, admin, ban).

Python dicts are modelled as association lists with first-match lookup
and in-place update; timestamps and user ids are integers; replies sent
with reply_text are modelled as values of an inductive Reply type, and
a handler that returns without replying yields none.
-/

namespace AIToolsBox

/-- Python dict lookup d.get(k): the value at the first matching key, none if absent. -/
def dictGet {α β : Type} [DecidableEq α] : List (α × β) → α → Option β
  | [], _ => none
  | p :: rest, k => if p.1 = k then some p.2 else dictGet rest k

/-- Python dict assignment d[k] = v: replace the value at an existing key, append if absent. -/
def dictSet {α β : Type} [DecidableEq α] : List (α × β) → α → β → List (α × β)
  | [], k, v => [(k, v)]
  | p :: rest, k, v => if p.1 = k then (k, v) :: rest else p :: dictSet rest k v

/-- Row of the users table: user_id INTEGER PRIMARY KEY, username, first_name, joined_at. -/
structure UserRow where
  user_id : Int
  username : String
  first_name : String
  joined_at : Int
deriving DecidableEq

/-- add_user (src/bot.py lines 74-80): INSERT OR IGNORE INTO users — a row is appended
only when no row with this user_id exists; an existing row is left untouched. -/
def add_user (users : List UserRow) (id : Int) (username first_name : String)
    (now : Int) : List UserRow :=
  if users.any (fun r => r.user_id == id) then users
  else users ++ [⟨id, username, first_name, now⟩]

/-- is_banned (src/bot.py lines 82-88): SELECT 1 FROM banned_users WHERE user_id=? —
true when a BanRecord for user_id exists. -/
def is_banned (banned_users : List Int) (user_id : Int) : Bool :=
  banned_users.contains user_id

/-- The INSERT OR IGNORE INTO banned_users statement of the ban handler
(src/bot.py lines 202-207): append user_id when absent, no-op when present. -/
def ban_insert (banned_users : List Int) (user_id : Int) : List Int :=
  if banned_users.contains user_id then banned_users else banned_users ++ [user_id]

/-- COOLDOWN (src/bot.py line 93). -/
def COOLDOWN : Int := 6

/-- rate_limit (src/bot.py lines 96-102): look up the last accepted timestamp in the
_last_request dict with default 0, reject leaving the dict unchanged when
now - last < COOLDOWN, otherwise store now and accept. Returns the bool result
together with the dict after the call. -/
def rate_limit (m : List (Int × Int)) (user_id : Int) (now : Int) :
    Bool × List (Int × Int) :=
  let last := (dictGet m user_id).getD 0
  if now - last < COOLDOWN then (false, m)
  else (true, dictSet m user_id now)

/-- TOOL_MESSAGES (src/bot.py lines 143-152). -/
def TOOL_MESSAGES : List (String × String) :=
  [("ig", "📥 Send Instagram Reel link"),
   ("yt", "▶️ Send YouTube video link"),
   ("fb", "📘 Send Facebook video link"),
   ("img_pdf", "🖼 Send image to convert into PDF"),
   ("pdf_img", "📄 Send PDF to convert into images"),
   ("tts", "🔊 Send text to convert into voice"),
   ("caption", "✍️ Send topic for caption"),
   ("hashtag", "🏷 Send topic for hashtags")]

/-- TOOL_MESSAGES.get(tool) as called at src/bot.py line 172. -/
def tool_message_get (tool : String) : Option String :=
  dictGet TOOL_MESSAGES tool

/-- The callback tokens wired to the menu buttons (src/bot.py lines 107-117). -/
def KNOWN_TOOLS : List String :=
  ["ig", "yt", "fb", "img_pdf", "pdf_img", "tts", "caption", "hashtag"]

/-- Replies sent via reply_text by the handlers of src/bot.py. tool_activated
carries the TOOL_MESSAGES.get(tool) lookup result interpolated into the
activation template; a none there is Python None ("empty/undefined"). -/
inductive Reply where
  | welcome
  | banned_msg
  | cooldown_msg
  | tool_activated (msg : Option String)
  | admin_panel
  | ban_usage
  | ban_confirm (target : Int)
deriving DecidableEq

/-- Mutable state the handlers touch: the users and banned_users tables, the
module-level _last_request dict, and the per-user active_tool entries of
context.user_data (keyed by the user the update came from). -/
structure BotState where
  users : List UserRow
  banned_users : List Int
  last_request : List (Int × Int)
  active_tool : List (Int × String)
deriving DecidableEq

/-- Fresh state: empty tables and empty in-memory maps. -/
def initialState : BotState := ⟨[], [], [], []⟩

/-- start (src/bot.py lines 122-138): upsert the user, reply with the welcome menu. -/
def start_handler (s : BotState) (id : Int) (username first_name : String)
    (now : Int) : Reply × BotState :=
  (Reply.welcome, { s with users := add_user s.users id username first_name now })

/-- tools_handler (src/bot.py lines 154-174): banned users get the banned message
and nothing changes; then rate_limit is called (its update to _last_request kept
either way) and on rejection the cooldown message is sent; otherwise the token is
stored as the active tool and the activation message built from
TOOL_MESSAGES.get(tool) is sent. -/
def tools_handler (s : BotState) (user_id : Int) (tool : String) (now : Int) :
    Reply × BotState :=
  if is_banned s.banned_users user_id then (Reply.banned_msg, s)
  else
    let res := rate_limit s.last_request user_id now
    if res.1 = false then (Reply.cooldown_msg, { s with last_request := res.2 })
    else
      (Reply.tool_activated (tool_message_get tool),
       { s with last_request := res.2,
                active_tool := dictSet s.active_tool user_id tool })

/-- admin (src/bot.py lines 179-190): silently return when the caller is not
ADMIN_ID, otherwise reply with the admin panel. No state is touched. -/
def admin_handler (admin_id : Int) (s : BotState) (caller : Int) :
    Option Reply × BotState :=
  if caller ≠ admin_id then (none, s) else (some Reply.admin_panel, s)

/-- The whitespace characters int(str) strips from both ends, the
Py_UNICODE_ISSPACE set of CPython: ASCII control whitespace 09-0D and 1C-1F,
space, NEL 85, NBSP A0, OGHAM 1680, the 2000-200A spaces, LINE and PARAGRAPH
SEPARATOR, NARROW NBSP 202F, MATH SPACE 205F, IDEOGRAPHIC SPACE 3000. -/
def pyIsSpace (c : Char) : Bool :=
  let n := c.toNat
  decide ((0x09 ≤ n ∧ n ≤ 0x0D) ∨ (0x1C ≤ n ∧ n ≤ 0x1F) ∨ n = 0x20 ∨
    n = 0x85 ∨ n = 0xA0 ∨ n = 0x1680 ∨ (0x2000 ≤ n ∧ n ≤ 0x200A) ∨
    n = 0x2028 ∨ n = 0x2029 ∨ n = 0x202F ∨ n = 0x205F ∨ n = 0x3000)

/-- First code points of the runs of ten consecutive decimal digits (general
category Nd) of Unicode 14.0.0, the database of CPython 3.11 — every Nd digit
sits in such a run with the digit values 0..9 in order, the five mathematical
alphanumeric runs listed separately. -/
def ND_DIGIT_RUNS : List Nat :=
  [0x0030, 0x0660, 0x06F0, 0x07C0, 0x0966, 0x09E6, 0x0A66, 0x0AE6, 0x0B66,
   0x0BE6, 0x0C66, 0x0CE6, 0x0D66, 0x0DE6, 0x0E50, 0x0ED0, 0x0F20, 0x1040,
   0x1090, 0x17E0, 0x1810, 0x1946, 0x19D0, 0x1A80, 0x1A90, 0x1B50, 0x1BB0,
   0x1C40, 0x1C50, 0xA620, 0xA8D0, 0xA900, 0xA9D0, 0xA9F0, 0xAA50, 0xABF0,
   0xFF10, 0x104A0, 0x10D30, 0x11066, 0x110F0, 0x11136, 0x111D0, 0x112F0,
   0x11450, 0x114D0, 0x11650, 0x116C0, 0x11730, 0x118E0, 0x11950, 0x11C50,
   0x11D50, 0x11DA0, 0x16A60, 0x16AC0, 0x16B50, 0x1D7CE, 0x1D7D8, 0x1D7E2,
   0x1D7EC, 0x1D7F6, 0x1E140, 0x1E2F0, 0x1E950, 0x1FBF0]

/-- Py_UNICODE_TODECIMAL: the decimal value of a Unicode Nd digit, none for
every other character. The int(str) conversion maps each such digit to its
value regardless of script. -/
def pyDigitValue (c : Char) : Option Nat :=
  (ND_DIGIT_RUNS.find? (fun s => decide (s ≤ c.toNat ∧ c.toNat < s + 10))).map
    (fun s => c.toNat - s)

/-- Digit accumulation after the first digit: PEP 515 allows a single
underscore between two digits and nowhere else, so after a digit the next
character is the end, a digit, or an underscore that must be followed by a
digit. -/
def pyDigitsAcc : Nat → List Char → Option Nat
  | acc, [] => some acc
  | acc, '_' :: c :: rest =>
      match pyDigitValue c with
      | some d => pyDigitsAcc (10 * acc + d) rest
      | none => none
  | _, ['_'] => none
  | acc, c :: rest =>
      match pyDigitValue c with
      | some d => pyDigitsAcc (10 * acc + d) rest
      | none => none

/-- The digit part of int(str): a nonempty sequence that starts and ends with
an Nd digit, with single underscores allowed between digits (PEP 515). -/
def pyParseDigits (cs : List Char) : Option Nat :=
  match cs with
  | [] => none
  | c :: rest =>
      match pyDigitValue c with
      | some d => pyDigitsAcc d rest
      | none => none

/-- Python int(str): strip Unicode whitespace from both ends, accept one
optional ASCII sign, then a nonempty underscore-grouped run of Unicode decimal
digits; everything else raises ValueError, which the bare except of the ban
handler turns into the usage reply. The CPython 3.11 conversion-length limit
(default 4300 digits, configurable and absent before 3.11) is not modelled:
command arguments stay far below it. -/
def pyParseInt (str : String) : Option Int :=
  let cs := ((str.toList.dropWhile pyIsSpace).reverse.dropWhile
      pyIsSpace).reverse
  match cs with
  | '+' :: rest => (pyParseDigits rest).map Int.ofNat
  | '-' :: rest => (pyParseDigits rest).map (fun n => -(Int.ofNat n))
  | _ => (pyParseDigits cs).map Int.ofNat

/-- int(context.args[0]) (src/bot.py line 197): IndexError when no argument,
ValueError when not an integer literal; both caught by the bare except. -/
def parse_first_arg (args : List String) : Option Int :=
  match args with
  | [] => none
  | a :: _ => pyParseInt a

/-- ban (src/bot.py lines 192-209): silently return for a non-admin caller;
reply with the usage hint when the argument is missing or unparseable;
otherwise INSERT OR IGNORE the target into banned_users and confirm. -/
def ban_handler (admin_id : Int) (s : BotState) (caller : Int)
    (args : List String) : Option Reply × BotState :=
  if caller ≠ admin_id then (none, s)
  else
    match parse_first_arg args with
    | none => (some Reply.ban_usage, s)
    | some target =>
        (some (Reply.ban_confirm target),
         { s with banned_users := ban_insert s.banned_users target })

/- ======================= helper lemmas ======================= -/

theorem dictGet_dictSet_self {α β : Type} [DecidableEq α]
    (m : List (α × β)) (k : α) (v : β) : dictGet (dictSet m k v) k = some v := by
  induction m with
  | nil => simp [dictSet, dictGet]
  | cons p rest ih =>
      by_cases h : p.1 = k
      · simp [dictSet, h, dictGet]
      · simp [dictSet, h, dictGet, ih]

theorem rate_limit_eq (m : List (Int × Int)) (u now : Int) :
    rate_limit m u now =
      if now - (dictGet m u).getD 0 < COOLDOWN then (false, m)
      else (true, dictSet m u now) := rfl

theorem rate_limit_false_frame (m : List (Int × Int)) (u now : Int)
    (h : (rate_limit m u now).1 = false) : rate_limit m u now = (false, m) := by
  by_cases hc : now - (dictGet m u).getD 0 < COOLDOWN
  · rw [rate_limit_eq, if_pos hc]
  · rw [rate_limit_eq, if_neg hc] at h
    simp at h

theorem rate_limit_true_eq (m : List (Int × Int)) (u now : Int)
    (h : (rate_limit m u now).1 = true) :
    rate_limit m u now = (true, dictSet m u now) ∧
      COOLDOWN ≤ now - (dictGet m u).getD 0 := by
  by_cases hc : now - (dictGet m u).getD 0 < COOLDOWN
  · rw [rate_limit_eq, if_pos hc] at h
    simp at h
  · exact ⟨by rw [rate_limit_eq, if_neg hc], by omega⟩

theorem pyParseInt_underscore_group : pyParseInt "1_0" = some 10 := by decide

theorem pyParseInt_arabic_indic :
    pyParseInt "١٢٣" = some 123 := by decide

theorem pyParseInt_nbsp_stripped :
    pyParseInt "\u00A0+42\u2009" = some 42 := by decide

theorem pyParseInt_double_underscore : pyParseInt "1__0" = none := by decide

theorem pyParseInt_leading_underscore : pyParseInt "_1" = none := by decide

theorem pyParseInt_trailing_underscore : pyParseInt "1_" = none := by decide

/- ======================= claims ======================= -/

/-- C1: for a user u with stored last-accepted timestamp last, rate_limit at now
with now - last < COOLDOWN returns false and leaves the map unchanged; with
COOLDOWN ≤ now - last it returns true and stores now for u. Consequently, after a
success at t0, a call at t1 > t0 with t1 - t0 < COOLDOWN fails (map unchanged)
and with COOLDOWN ≤ t1 - t0 succeeds. -/
theorem C1_rate_limit_contract (m : List (Int × Int)) (u last now t0 t1 : Int)
    (hlast : dictGet m u = some last) :
    (now - last < COOLDOWN → rate_limit m u now = (false, m)) ∧
    (COOLDOWN ≤ now - last →
      (rate_limit m u now).1 = true ∧
      dictGet (rate_limit m u now).2 u = some now) ∧
    (∀ m1 : List (Int × Int), rate_limit m u t0 = (true, m1) → t0 < t1 →
      (t1 - t0 < COOLDOWN → rate_limit m1 u t1 = (false, m1)) ∧
      (COOLDOWN ≤ t1 - t0 → (rate_limit m1 u t1).1 = true)) := by
  have hg : (dictGet m u).getD 0 = last := by rw [hlast]; rfl
  refine ⟨?_, ?_, ?_⟩
  · intro h
    rw [rate_limit_eq, hg, if_pos h]
  · intro h
    have hn : ¬(now - last < COOLDOWN) := by omega
    rw [rate_limit_eq, hg, if_neg hn]
    exact ⟨rfl, dictGet_dictSet_self m u now⟩
  · intro m1 h1 _
    have htrue : (rate_limit m u t0).1 = true := by rw [h1]
    have hm1 : m1 = dictSet m u t0 := by
      have := (rate_limit_true_eq m u t0 htrue).1.symm.trans h1
      exact (Prod.mk.injEq _ _ _ _ ▸ this).2.symm
    have hg1 : (dictGet m1 u).getD 0 = t0 := by
      rw [hm1, dictGet_dictSet_self]; rfl
    constructor
    · intro h
      rw [rate_limit_eq, hg1, if_pos h]
    · intro h
      have hn : ¬(t1 - t0 < COOLDOWN) := by omega
      rw [rate_limit_eq, hg1, if_neg hn]

/-- C1 witness: user 5 last accepted at 10; a call at 12 is rejected leaving the
map unchanged, a call at 16 is accepted, an immediate call at 20 is rejected,
and a call at 22 (6 units after 16) is accepted. -/
theorem C1_rate_limit_contract_witness :
    rate_limit [(5, 10)] 5 12 = (false, [(5, 10)]) ∧
    (rate_limit [(5, 10)] 5 16).1 = true ∧
    rate_limit [(5, 16)] 5 20 = (false, [(5, 16)]) ∧
    (rate_limit [(5, 16)] 5 22).1 = true := by
  refine ⟨(C1_rate_limit_contract [(5, 10)] 5 10 12 16 20 (by decide)).1 (by decide),
    ((C1_rate_limit_contract [(5, 10)] 5 10 16 16 20 (by decide)).2.1 (by decide)).1,
    ((C1_rate_limit_contract [(5, 10)] 5 10 16 16 20 (by decide)).2.2 [(5, 16)]
      (by decide) (by decide)).1 (by decide),
    ((C1_rate_limit_contract [(5, 10)] 5 10 16 16 22 (by decide)).2.2 [(5, 16)]
      (by decide) (by decide)).2 (by decide)⟩

/-- C2 counterexample: user 5 is absent from the empty map, yet rate_limit at
time 5 returns false, because the absent entry defaults to timestamp 0 and
5 - 0 < COOLDOWN; so tryAcquire for an absent user does not return true at
every time now. -/
theorem C2_counterexample :
    dictGet ([] : List (Int × Int)) 5 = none ∧
    rate_limit [] 5 5 = (false, []) := by decide

/-- C2 amended: an absent entry is treated as last-accepted timestamp 0 (not
infinitely long ago), so for a user absent from the map rate_limit returns true
at every time now with COOLDOWN ≤ now, and stores now for that user. -/
theorem C2_absent_defaults_to_zero (m : List (Int × Int)) (u now : Int)
    (habs : dictGet m u = none) (hnow : COOLDOWN ≤ now) :
    (rate_limit m u now).1 = true ∧
    dictGet (rate_limit m u now).2 u = some now := by
  have hg : (dictGet m u).getD 0 = 0 := by rw [habs]; rfl
  have hn : ¬(now - 0 < COOLDOWN) := by omega
  rw [rate_limit_eq, hg, if_neg hn]
  exact ⟨rfl, dictGet_dictSet_self m u now⟩

/-- C2 witness: user 5 is absent from a map holding only user 3, and a call at
time 6 is accepted and records 6 for user 5. -/
theorem C2_absent_defaults_to_zero_witness :
    (rate_limit [(3, 2)] 5 6).1 = true ∧
    dictGet (rate_limit [(3, 2)] 5 6).2 5 = some 6 :=
  C2_absent_defaults_to_zero [(3, 2)] 5 6 (by decide) (by decide)

/-- C3: from any ban list respecting the PRIMARY KEY invariant (u stored at most
once), after ban(u) the query is_banned(u) is true, banning u a second time is a
no-op, and exactly one BanRecord for u exists. -/
theorem C3_ban_idempotent (b : List Int) (u : Int) (h : List.count u b ≤ 1) :
    is_banned (ban_insert b u) u = true ∧
    ban_insert (ban_insert b u) u = ban_insert b u ∧
    List.count u (ban_insert b u) = 1 := by
  by_cases hc : b.contains u = true
  · have hmem : u ∈ b := by simpa using hc
    have hpos : 0 < List.count u b := List.count_pos_iff.mpr hmem
    unfold ban_insert is_banned
    simp only [hc, if_true]
    exact ⟨trivial, trivial, by omega⟩
  · have hnm : u ∉ b := by simpa using hc
    unfold ban_insert is_banned
    simp only [hc, Bool.false_eq_true, if_false]
    have hcontains : (b ++ [u]).contains u = true := by simp
    refine ⟨hcontains, by simp only [hcontains, if_true], ?_⟩
    simp [List.count_eq_zero.mpr hnm]

/-- C3 witness: starting from an empty ban list, banning user 3 makes
is_banned true, a second ban is a no-op, and user 3 has exactly one record. -/
theorem C3_ban_idempotent_witness :
    is_banned (ban_insert [] 3) 3 = true ∧
    ban_insert (ban_insert [] 3) 3 = ban_insert [] 3 ∧
    List.count 3 (ban_insert [] 3) = 1 :=
  C3_ban_idempotent [] 3 (by decide)

/-- C4: add_user is first-write-wins idempotent — a second upsert for the same
id, even with different username, first name or timestamp, returns the users
table exactly as the first upsert left it (original row kept, no row added). -/
theorem C4_upsert_first_write_wins (us : List UserRow) (id : Int)
    (n1 f1 n2 f2 : String) (t1 t2 : Int) :
    add_user (add_user us id n1 f1 t1) id n2 f2 t2 = add_user us id n1 f1 t1 := by
  by_cases h : us.any (fun r => r.user_id == id) = true
  · unfold add_user
    simp only [h, if_true]
  · unfold add_user
    simp only [h, Bool.false_eq_true, if_false]
    have hhit : (us ++ [(⟨id, n1, f1, t1⟩ : UserRow)]).any
        (fun r => r.user_id == id) = true := by
      simp [List.any_append]
    simp only [hhit, if_true]

/-- C5: a rejected tool selection mutates nothing — a banned user gets the
banned message with the whole state (rate-limiter map, active tool, tables)
unchanged; a non-banned user failing the cooldown check gets the cooldown
message with the whole state unchanged, so the previously recorded active tool
is not overwritten by the rejected selection. -/
theorem C5_rejected_selection_frame (s : BotState) (u : Int) (tool : String)
    (now : Int) :
    (is_banned s.banned_users u = true →
      tools_handler s u tool now = (Reply.banned_msg, s)) ∧
    (is_banned s.banned_users u = false →
      (rate_limit s.last_request u now).1 = false →
      tools_handler s u tool now = (Reply.cooldown_msg, s)) := by
  constructor
  · intro hb
    simp [tools_handler, hb]
  · intro hb hr
    have hfr := rate_limit_false_frame s.last_request u now hr
    simp [tools_handler, hb, hfr]

/-- C5 witness: banned user 7 selecting ig gets the banned message with state
unchanged; non-banned user 2, last accepted at 10, selecting ig at 12 gets the
cooldown message with state unchanged (active tool stays yt). -/
theorem C5_rejected_selection_frame_witness :
    tools_handler ⟨[], [7], [], [(7, "yt")]⟩ 7 "ig" 100 =
      (Reply.banned_msg, ⟨[], [7], [], [(7, "yt")]⟩) ∧
    tools_handler ⟨[], [], [(2, 10)], [(2, "yt")]⟩ 2 "ig" 12 =
      (Reply.cooldown_msg, ⟨[], [], [(2, 10)], [(2, "yt")]⟩) :=
  ⟨(C5_rejected_selection_frame ⟨[], [7], [], [(7, "yt")]⟩ 7 "ig" 100).1 (by decide),
   (C5_rejected_selection_frame ⟨[], [], [(2, 10)], [(2, "yt")]⟩ 2 "ig" 12).2
     (by decide) (by decide)⟩

/-- C6: a caller other than the configured admin id gets no reply at all from
the admin and ban handlers, and the whole state — in particular the ban list —
is unchanged, whatever the arguments. -/
theorem C6_unauthorized_silent (admin_id : Int) (s : BotState) (caller : Int)
    (args : List String) (h : caller ≠ admin_id) :
    admin_handler admin_id s caller = (none, s) ∧
    ban_handler admin_id s caller args = (none, s) := by
  unfold admin_handler ban_handler
  simp [h]

/-- C6 witness: with admin id 7, caller 8 issuing the admin command or ban with
argument 5 gets no reply and leaves the fresh state unchanged. -/
theorem C6_unauthorized_silent_witness :
    admin_handler 7 initialState 8 = (none, initialState) ∧
    ban_handler 7 initialState 8 ["5"] = (none, initialState) :=
  C6_unauthorized_silent 7 initialState 8 ["5"] (by decide)

/-- For a token outside the wired menu tokens, the TOOL_MESSAGES lookup is empty. -/
theorem tool_message_get_eq_none (tool : String) (hk : tool ∉ KNOWN_TOOLS) :
    tool_message_get tool = none := by
  simp only [KNOWN_TOOLS, List.mem_cons, List.not_mem_nil, or_false, not_or] at hk
  obtain ⟨h1, h2, h3, h4, h5, h6, h7, h8⟩ := hk
  simp [tool_message_get, TOOL_MESSAGES, dictGet, Ne.symm h1, Ne.symm h2,
    Ne.symm h3, Ne.symm h4, Ne.symm h5, Ne.symm h6, Ne.symm h7, Ne.symm h8]

/-- C8: for a callback token outside ig, yt, fb, img_pdf, pdf_img, tts, caption,
hashtag, a selection by a non-banned user that passes the cooldown check is
answered with the activation message whose tool-specific part is the empty
result (none) of the TOOL_MESSAGES lookup. -/
theorem C8_unknown_token_empty_message (s : BotState) (u : Int) (tool : String)
    (now : Int) (hk : tool ∉ KNOWN_TOOLS)
    (hb : is_banned s.banned_users u = false)
    (hr : (rate_limit s.last_request u now).1 = true) :
    (tools_handler s u tool now).1 = Reply.tool_activated none := by
  have hmsg := tool_message_get_eq_none tool hk
  have hre := (rate_limit_true_eq s.last_request u now hr).1
  simp [tools_handler, hb, hre, hmsg]

/-- C8 witness: the unknown token xx selected by non-banned user 1 at time 10 on
a fresh state is answered with the activation message carrying none. -/
theorem C8_unknown_token_empty_message_witness :
    (tools_handler initialState 1 "xx" 10).1 = Reply.tool_activated none :=
  C8_unknown_token_empty_message initialState 1 "xx" 10 (by decide) (by decide)
    (by decide)

/-- C9 counterexample: with the default admin id 0, a caller whose user id is 0
is authorized — the admin command replies with the admin panel, and ban 5 both
replies and inserts a BanRecord for 5 — so it is not true that with admin id 0
every caller gets no reply and no mutation. -/
theorem C9_counterexample :
    admin_handler 0 initialState 0 = (some Reply.admin_panel, initialState) ∧
    ban_handler 0 initialState 0 ["5"] =
      (some (Reply.ban_confirm 5), ⟨[], [5], [], []⟩) := by decide

/-- C9 amended: with the default admin id 0, every caller whose user id differs
from 0 gets no reply and no mutation from the admin and ban handlers; a caller
with user id 0 is treated as the administrator. -/
theorem C9_default_admin_zero (s : BotState) (caller : Int) (args : List String)
    (h : caller ≠ 0) :
    admin_handler 0 s caller = (none, s) ∧
    ban_handler 0 s caller args = (none, s) := by
  unfold admin_handler ban_handler
  simp [h]

/-- C9 witness: with admin id 0, caller 3 issuing the admin command or ban 5
gets no reply and leaves the fresh state unchanged. -/
theorem C9_default_admin_zero_witness :
    admin_handler 0 initialState 3 = (none, initialState) ∧
    ban_handler 0 initialState 3 ["5"] = (none, initialState) :=
  C9_default_admin_zero initialState 3 ["5"] (by decide)

/-- C10: every token, known or unknown, is processed the same way up to the
reply text — a selection by a non-banned user that passes the cooldown check
replies with the activation message built from the TOOL_MESSAGES lookup, records
that exact token as the active tool for the user (overwriting any previous
selection), and updates the last-accepted timestamp for the user to now. -/
theorem C10_accepted_selection_records (s : BotState) (u : Int) (tool : String)
    (now : Int) (hb : is_banned s.banned_users u = false)
    (hr : (rate_limit s.last_request u now).1 = true) :
    (tools_handler s u tool now).1 = Reply.tool_activated (tool_message_get tool) ∧
    dictGet (tools_handler s u tool now).2.active_tool u = some tool ∧
    (tools_handler s u tool now).2.last_request = dictSet s.last_request u now ∧
    dictGet (tools_handler s u tool now).2.last_request u = some now := by
  have hre := (rate_limit_true_eq s.last_request u now hr).1
  simp [tools_handler, hb, hre, dictGet_dictSet_self]

/-- C10 witness: user 5, last accepted at 10 with active tool yt, selects ig at
16 — the selection is accepted, ig overwrites yt as the active tool, and the
last-accepted timestamp for user 5 becomes 16. -/
theorem C10_accepted_selection_records_witness :
    (tools_handler ⟨[], [], [(5, 10)], [(5, "yt")]⟩ 5 "ig" 16).1 =
      Reply.tool_activated (tool_message_get "ig") ∧
    dictGet (tools_handler ⟨[], [], [(5, 10)], [(5, "yt")]⟩ 5 "ig" 16).2.active_tool
      5 = some "ig" ∧
    (tools_handler ⟨[], [], [(5, 10)], [(5, "yt")]⟩ 5 "ig" 16).2.last_request =
      dictSet [(5, 10)] 5 16 ∧
    dictGet (tools_handler ⟨[], [], [(5, 10)], [(5, "yt")]⟩ 5 "ig" 16).2.last_request
      5 = some 16 :=
  C10_accepted_selection_records ⟨[], [], [(5, 10)], [(5, "yt")]⟩ 5 "ig" 16
    (by decide) (by decide)

end AIToolsBox
